import Mathlib

/-!
Verification development for the Kubernetes workload-containment core of
`cloud-forensics-utils` (`libcloudforensics/providers/kubernetes`):
`workloads.py`, `mitigation.py`, `cluster.py`.

Label mappings (Python `Dict[str, str]`) are embedded as association lists
`List (String × String)`; dictionary membership and indexing are embedded by
first-occurrence lookup.  Remote API objects are embedded as explicit records,
and remote calls become pure functions of an explicit world (the cluster's
current objects).  Side-effecting operations are embedded as the list of API
calls they issue, in order.  Components of the repository that live outside
the provided sources (`base.py` handles, `selector.py`) and the external
orchestration API are modelled from the specification; each such definition is
marked `Modelled from the spec:` in its doc comment.
-/

namespace K8s

/-- First-occurrence lookup in an association list of labels; embeds Python
dictionary membership (`key in d`) and indexing (`d[key]`) on `Dict[str, str]`
values (whose keys are unique, making the first occurrence the only one). -/
def lookupLabel (labels : List (String × String)) (key : String) : Option String :=
  match labels with
  | [] => none
  | (k, v) :: rest => if k == key then some v else lookupLabel rest key

/-- Embedding of `K8sWorkload.IsCoveringPod` (workloads.py:103-121), with the
workload's resolved `_PodMatchLabels()` result and the pod's fetched
`GetLabels()` result passed explicitly: iterate over the match-label pairs,
returning `false` at the first key that is missing from the pod's labels or
bound to a different value, and `true` if the loop finishes. -/
def IsCoveringPod (matchLabels podLabels : List (String × String)) : Bool :=
  match matchLabels with
  | [] => true
  | (k, v) :: rest =>
    match lookupLabel podLabels k with
    | none => false
    | some w => if w == v then IsCoveringPod rest podLabels else false

/-- One entry of a selector's `matchExpressions` list (an expression-based
match rule, e.g. `In`/`NotIn`/`Exists`). -/
structure MatchExpression where
  key : String
  op : String
  values : List String
deriving DecidableEq

/-- Embedding of the `spec.selector` field of a deployment or replica-set
object as returned by `Read()`: the `matchLabels` equality mapping together
with the optional `matchExpressions` list (`none` when the field is absent
from the remote object). -/
structure LabelSelector where
  matchLabels : List (String × String)
  matchExpressions : Option (List MatchExpression)
deriving DecidableEq

/-- Embedding of the workload spec fetched by `Read()`, restricted to the
field the provided sources consume (`read.spec.selector`). -/
structure WorkloadSpec where
  selector : LabelSelector
deriving DecidableEq

/-- The failure modes raised by the provided sources.
`unsupportedSelector` is the `NotImplementedError` of workloads.py:76
(match expressions exist, the spec's `UnsupportedSelectorError`);
`ambiguousReplicaSets n` is the `NotImplementedError` of workloads.py:183
(`n` matching replica sets where exactly 1 was expected, the spec's
`AmbiguousResourceError`). -/
inductive K8sError where
  | unsupportedSelector
  | ambiguousReplicaSets (count : Nat)
deriving DecidableEq

/-- Embedding of `K8sWorkload.MatchLabels` (workloads.py:63-80), with the
result of the remote `Read()` passed explicitly: raise when the selector's
`match_expressions` field `is not None`, otherwise return the selector's
`match_labels` mapping. -/
def MatchLabels (spec : WorkloadSpec) : Except K8sError (List (String × String)) :=
  if spec.selector.matchExpressions.isSome then
    .error .unsupportedSelector
  else
    .ok spec.selector.matchLabels

/-- The expression-based rules a selector carries: the content of its
`matchExpressions` field, empty when the field is absent. -/
def expressionRules (sel : LabelSelector) : List MatchExpression :=
  sel.matchExpressions.getD []

/-- The coverage relation of the spec: every key-value pair of the workload's
match labels is present with an equal value in the pod's labels. -/
def CoversSpec (matchLabels podLabels : List (String × String)) : Prop :=
  ∀ kv ∈ matchLabels, lookupLabel podLabels kv.1 = some kv.2

/-- Claim C1: for every workload match-label mapping `W` and pod label mapping
`P`, `IsCoveringPod` returns `true` iff every key-value pair of `W` is present
with an equal value in `P`; in particular `IsCoveringPod [] P = true` for
every `P`. -/
theorem c1_isCoveringPod_iff_subset (W P : List (String × String)) :
    (IsCoveringPod W P = true ↔ CoversSpec W P) ∧ IsCoveringPod [] P = true := by
  refine ⟨?_, rfl⟩
  induction W with
  | nil =>
    simp [IsCoveringPod, CoversSpec]
  | cons kv rest ih =>
    obtain ⟨k, v⟩ := kv
    constructor
    · intro h
      simp only [IsCoveringPod] at h
      split at h
      · exact absurd h (by simp)
      · next w hl =>
        split at h
        · next hw =>
          intro kv hkv
          rcases List.mem_cons.mp hkv with hkv | hkv
          · subst hkv
            simpa [hl] using congrArg some (beq_iff_eq.mp hw)
          · exact ih.mp h kv hkv
        · exact absurd h (by simp)
    · intro h
      have hhead := h (k, v) (List.mem_cons_self _ _)
      simp only at hhead
      have htail : CoversSpec rest P := fun kv hkv => h kv (List.mem_cons_of_mem _ hkv)
      simp only [IsCoveringPod, hhead]
      rw [if_pos (beq_iff_eq.mpr rfl)]
      exact ih.mpr htail

/-- Claim C10 (theorem): `MatchLabels` fails with the unsupported-selector
error whenever the spec's `matchExpressions` field is present (non-null) at
all, even when it holds an empty list of expression rules. -/
theorem c10_matchLabels_fails_when_expressions_present (spec : WorkloadSpec)
    (h : spec.selector.matchExpressions.isSome = true) :
    MatchLabels spec = .error .unsupportedSelector := by
  simp [MatchLabels, h]

/-- Claim C10 (witness): a workload whose selector carries an equality mapping
and an empty-but-present `matchExpressions` list is rejected rather than
resolved to its `matchLabels` mapping. -/
theorem c10_witness :
    (WorkloadSpec.mk ⟨[("app", "nginx")], some []⟩).selector.matchExpressions.isSome = true ∧
      MatchLabels ⟨⟨[("app", "nginx")], some []⟩⟩ = .error .unsupportedSelector :=
  ⟨rfl, c10_matchLabels_fails_when_expressions_present ⟨⟨[("app", "nginx")], some []⟩⟩ rfl⟩

/-- Claim C5 (counterexample): a workload whose selector has no
expression-based rules (its `matchExpressions` is the empty list `some []`,
containing no rules) on which `MatchLabels` nevertheless does not return the
equality mapping — it fails — refuting the claim's second half as stated. -/
theorem c5_counterexample :
    expressionRules ⟨[("app", "nginx")], some []⟩ = [] ∧
      MatchLabels ⟨⟨[("app", "nginx")], some []⟩⟩ ≠ .ok [("app", "nginx")] := by
  constructor
  · rfl
  · intro h
    simp [MatchLabels] at h

/-- Claim C5 (amended): `MatchLabels` fails with the unsupported-selector
error exactly when the selector's `matchExpressions` field is present
(non-null) — in particular whenever any expression rule exists, regardless of
accompanying equality rules — and returns the equality mapping from the
`matchLabels` field exactly when the field is absent. -/
theorem c5_matchLabels_amended (spec : WorkloadSpec) :
    (spec.selector.matchExpressions.isSome = true →
      MatchLabels spec = .error .unsupportedSelector) ∧
    (spec.selector.matchExpressions = none →
      MatchLabels spec = .ok spec.selector.matchLabels) := by
  constructor
  · intro h; simp [MatchLabels, h]
  · intro h; simp [MatchLabels, h]

/-- Claim C5 (witness): the amended claim evaluated on a selector carrying an
expression rule (rejected) and on an expression-free selector (resolved). -/
theorem c5_witness :
    MatchLabels ⟨⟨[("a", "b")], some [⟨"k", "In", ["x"]⟩]⟩⟩ = .error .unsupportedSelector ∧
      MatchLabels ⟨⟨[("a", "b")], none⟩⟩ = .ok [("a", "b")] :=
  ⟨(c5_matchLabels_amended ⟨⟨[("a", "b")], some [⟨"k", "In", ["x"]⟩]⟩⟩).1 rfl,
   (c5_matchLabels_amended ⟨⟨[("a", "b")], none⟩⟩).2 rfl⟩

/-- Embedding of a replica-set object as stored in the cluster: identity
(name, namespace), metadata labels, and its spec's selector. -/
structure ReplicaSetObj where
  name : String
  ns : String
  labels : List (String × String)
  selector : LabelSelector
deriving DecidableEq

/-- Embedding of a deployment object: identity and its spec's selector. -/
structure DeploymentObj where
  name : String
  ns : String
  selector : LabelSelector
deriving DecidableEq

/-- Modelled from the spec: server-side equality-selector filtering by the
external orchestration API (spec sections 4.1 and 6) — the serialized
`k1=v1,k2=v2,...` selector built by `K8sSelector.FromLabelsDict` (selector.py,
not among the provided sources) matches an object iff each equality clause is
present with an equal value in the object's labels. -/
def selectorMatches (sel labels : List (String × String)) : Bool :=
  sel.all (fun kv => lookupLabel labels kv.1 == some kv.2)

/-- Modelled from the spec: the external API's
`list_namespaced_replica_set(namespace, label_selector=...)` — the replica
sets of the world that are in the given namespace and whose metadata labels
match the selector. -/
def listNamespacedReplicaSet (world : List ReplicaSetObj) (ns : String)
    (sel : List (String × String)) : List ReplicaSetObj :=
  world.filter (fun rs => rs.ns == ns && selectorMatches sel rs.labels)

/-- Embedding of `K8sDeployment._ReplicaSet` (workloads.py:163-192): resolve
the deployment's `MatchLabels()`, list the replica sets of the deployment's
namespace filtered by the corresponding selector, raise the ambiguity error
unless exactly one replica set is returned, and return that one. -/
def deploymentReplicaSet (d : DeploymentObj) (world : List ReplicaSetObj) :
    Except K8sError ReplicaSetObj := do
  let sel ← MatchLabels ⟨d.selector⟩
  let rss := listNamespacedReplicaSet world d.ns sel
  match rss with
  | [rs] => return rs
  | other => throw (.ambiguousReplicaSets other.length)

/-- Embedding of `K8sDeployment._PodMatchLabels` (workloads.py:194-196):
`self._ReplicaSet().MatchLabels()`. -/
def deploymentPodMatchLabels (d : DeploymentObj) (world : List ReplicaSetObj) :
    Except K8sError (List (String × String)) := do
  let rs ← deploymentReplicaSet d world
  MatchLabels ⟨rs.selector⟩

/-- Embedding of `K8sReplicaSet._PodMatchLabels` (workloads.py:229-231):
`self.MatchLabels()`. -/
def replicaSetPodMatchLabels (rs : ReplicaSetObj) :
    Except K8sError (List (String × String)) :=
  MatchLabels ⟨rs.selector⟩

/-- Claim C4: deployment pod-match-label resolution queries replica sets in
the deployment's namespace filtered by the deployment's equality selector;
with exactly one match it succeeds with that replica set's own declared match
labels (the replica set itself carrying an expression-free selector); with
zero or several matches it fails with the ambiguity error, never picking one. -/
theorem c4_deployment_replicaset_resolution (d : DeploymentObj)
    (world : List ReplicaSetObj) (sel : List (String × String))
    (hsel : MatchLabels ⟨d.selector⟩ = .ok sel) :
    (∀ rs ∈ listNamespacedReplicaSet world d.ns sel,
        rs.ns = d.ns ∧ selectorMatches sel rs.labels = true) ∧
    (∀ rs, listNamespacedReplicaSet world d.ns sel = [rs] →
        deploymentReplicaSet d world = .ok rs ∧
        (rs.selector.matchExpressions = none →
          deploymentPodMatchLabels d world = .ok rs.selector.matchLabels)) ∧
    ((listNamespacedReplicaSet world d.ns sel).length ≠ 1 →
        deploymentReplicaSet d world =
          .error (.ambiguousReplicaSets (listNamespacedReplicaSet world d.ns sel).length)) := by
  have hstep : deploymentReplicaSet d world =
      (match listNamespacedReplicaSet world d.ns sel with
        | [rs] => Except.ok rs
        | other => Except.error (.ambiguousReplicaSets other.length)) := by
    unfold deploymentReplicaSet
    rw [hsel]
    rfl
  refine ⟨?_, ?_, ?_⟩
  · intro rs hrs
    have := List.mem_filter.mp hrs
    have hb := this.2
    simp only [Bool.and_eq_true, beq_iff_eq] at hb
    exact hb
  · intro rs hone
    have hres : deploymentReplicaSet d world = .ok rs := by
      rw [hstep, hone]
    refine ⟨hres, fun hnone => ?_⟩
    have hstep2 : deploymentPodMatchLabels d world = MatchLabels ⟨rs.selector⟩ := by
      unfold deploymentPodMatchLabels
      rw [hres]
      rfl
    rw [hstep2]
    simp only [MatchLabels, hnone, Option.isSome_none, Bool.false_eq_true, if_false]
  · intro hlen
    rw [hstep]
    cases hshape : listNamespacedReplicaSet world d.ns sel with
    | nil => rfl
    | cons a t =>
      cases t with
      | nil => exact absurd (by rw [hshape]; rfl) hlen
      | cons b t2 => rfl

/-- Concrete deployment used to witness claims C4 and C6. -/
def dWit : DeploymentObj := ⟨"dep", "ns1", ⟨[("app", "x")], none⟩⟩

/-- Concrete replica set matching `dWit`'s selector. -/
def rsWit : ReplicaSetObj := ⟨"rs1", "ns1", [("app", "x")], ⟨[("tier", "web")], none⟩⟩

/-- A world in which exactly one replica set matches `dWit`'s selector. -/
def worldOne : List ReplicaSetObj := [rsWit]

/-- A world in which two replica sets match `dWit`'s selector. -/
def worldTwo : List ReplicaSetObj :=
  [rsWit, ⟨"rs2", "ns1", [("app", "x")], ⟨[("tier", "db")], none⟩⟩]

/-- Claim C4 (witness): against one matching replica set, resolution returns
that replica set's own match labels; against zero or two, it fails with the
ambiguity error carrying the match count. -/
theorem c4_witness :
    deploymentPodMatchLabels dWit worldOne = .ok [("tier", "web")] ∧
      deploymentReplicaSet dWit [] = .error (.ambiguousReplicaSets 0) ∧
      deploymentReplicaSet dWit worldTwo = .error (.ambiguousReplicaSets 2) := by
  refine ⟨?_, ?_, ?_⟩
  · exact (((c4_deployment_replicaset_resolution dWit worldOne [("app", "x")] rfl).2.1
      rsWit (by decide)).2 rfl)
  · exact (c4_deployment_replicaset_resolution dWit [] [("app", "x")] rfl).2.2 (by decide)
  · exact (c4_deployment_replicaset_resolution dWit worldTwo [("app", "x")] rfl).2.2 (by decide)

/-- One delete call issued to the external API; `orphan` records whether the
call carried the `propagationPolicy: Orphan` body (i.e. was issued with
`cascade=False`). -/
inductive ApiCall where
  | deleteDeployment (name ns : String) (orphan : Bool)
  | deleteReplicaSet (name ns : String) (orphan : Bool)
deriving DecidableEq

/-- Embedding of `K8sDeployment.Delete` (workloads.py:148-156) as the API
calls it issues: a plain cascading delete when `cascade` holds, an
orphan-propagation delete otherwise. -/
def deploymentDelete (d : DeploymentObj) (cascade : Bool) : List ApiCall :=
  if cascade then [.deleteDeployment d.name d.ns false]
  else [.deleteDeployment d.name d.ns true]

/-- Embedding of `K8sReplicaSet.Delete` (workloads.py:219-227) as the API
calls it issues. -/
def replicaSetDelete (rs : ReplicaSetObj) (cascade : Bool) : List ApiCall :=
  if cascade then [.deleteReplicaSet rs.name rs.ns false]
  else [.deleteReplicaSet rs.name rs.ns true]

/-- Embedding of `K8sDeployment.OrphanPods` (workloads.py:139-146):
`self.Delete(cascade=False)` followed by `self._ReplicaSet().Delete(cascade=False)`.
The result is the list of API calls issued, in order, paired with the error
when replica-set resolution fails (after the first delete was already
issued, mirroring the exception propagating out of the second statement). -/
def deploymentOrphanPods (d : DeploymentObj) (world : List ReplicaSetObj) :
    List ApiCall × Option K8sError :=
  let first := deploymentDelete d false
  match deploymentReplicaSet d world with
  | .error e => (first, some e)
  | .ok rs => (first ++ replicaSetDelete rs false, none)

/-- Embedding of `K8sReplicaSet.OrphanPods` (workloads.py:215-217):
`self.Delete(cascade=False)`. -/
def replicaSetOrphanPods (rs : ReplicaSetObj) : List ApiCall :=
  replicaSetDelete rs false

/-- Claim C6: on a deployment (whose replica set resolves), `OrphanPods`
issues exactly two orphan-propagation delete calls, the deployment's first
and its resolved replica set's second; on a replica set it issues exactly
one orphan-propagation delete call. -/
theorem c6_orphanPods_calls (d : DeploymentObj) (world : List ReplicaSetObj)
    (rs : ReplicaSetObj) (hres : deploymentReplicaSet d world = .ok rs) :
    deploymentOrphanPods d world =
      ([.deleteDeployment d.name d.ns true, .deleteReplicaSet rs.name rs.ns true], none) ∧
    ∀ rs2 : ReplicaSetObj,
      replicaSetOrphanPods rs2 = [.deleteReplicaSet rs2.name rs2.ns true] := by
  constructor
  · simp only [deploymentOrphanPods, hres, deploymentDelete, replicaSetDelete,
      Bool.false_eq_true, if_false]
    rfl
  · intro rs2
    rfl

/-- Claim C6 (witness): the two orphan-delete calls on the concrete
deployment, and the single orphan-delete call on its replica set. -/
theorem c6_witness :
    deploymentOrphanPods dWit worldOne =
      ([.deleteDeployment "dep" "ns1" true, .deleteReplicaSet "rs1" "ns1" true], none) ∧
      replicaSetOrphanPods rsWit = [.deleteReplicaSet "rs1" "ns1" true] :=
  ⟨(c6_orphanPods_calls dWit worldOne rsWit rfl).1,
   (c6_orphanPods_calls dWit worldOne rsWit rfl).2 rsWit⟩

/-- Embedding of a pod object as stored in the cluster: identity
(name, namespace), its current labels, and the name of the node it is bound
to. `labels` is what `K8sPod.GetLabels()` fetches, `nodeName` what
`K8sPod.GetNode()` resolves (both handles live in base.py, outside the
provided sources; modelled from the spec's PodRef accessors). -/
structure PodObj where
  name : String
  ns : String
  labels : List (String × String)
  nodeName : String
deriving DecidableEq

/-- Embedding of `K8sWorkload.GetCoveredPods` (workloads.py:82-101): build the
selector from the workload's resolved `_PodMatchLabels()` (passed explicitly
as `matchLabels`), issue `list_namespaced_pod` in the workload's namespace
filtered by it (server-side filtering modelled from the spec, sections 4.1
and 6), and return the pod handles (name, namespace) constructed from the
result set. -/
def GetCoveredPods (wNs : String) (matchLabels : List (String × String))
    (world : List PodObj) : List (String × String) :=
  (world.filter (fun p => p.ns == wNs && selectorMatches matchLabels p.labels)).map
    (fun p => (p.name, p.ns))

/-- Claim C8: `GetCoveredPods` lists exactly the pods of the workload's own
namespace whose labels match the selector built from the workload's
pod-match-labels; a pod in a different namespace is excluded even when its
labels satisfy the label predicate. -/
theorem c8_getCoveredPods_namespaced (wNs : String)
    (matchLabels : List (String × String)) (world : List PodObj) :
    (∀ r, r ∈ GetCoveredPods wNs matchLabels world ↔
        ∃ p ∈ world, p.ns = wNs ∧ selectorMatches matchLabels p.labels = true ∧
          r = (p.name, p.ns)) ∧
    (∀ p ∈ world, p.ns ≠ wNs → selectorMatches matchLabels p.labels = true →
        (p.name, p.ns) ∉ GetCoveredPods wNs matchLabels world) := by
  have hmem : ∀ r, r ∈ GetCoveredPods wNs matchLabels world ↔
      ∃ p ∈ world, p.ns = wNs ∧ selectorMatches matchLabels p.labels = true ∧
        r = (p.name, p.ns) := by
    intro r
    constructor
    · intro hr
      rcases List.mem_map.mp hr with ⟨p, hp, hpr⟩
      have hf := List.mem_filter.mp hp
      have hb := hf.2
      simp only [Bool.and_eq_true, beq_iff_eq] at hb
      exact ⟨p, hf.1, hb.1, hb.2, hpr.symm⟩
    · rintro ⟨p, hp, hns, hsel, rfl⟩
      refine List.mem_map.mpr ⟨p, List.mem_filter.mpr ⟨hp, ?_⟩, rfl⟩
      simp only [Bool.and_eq_true, beq_iff_eq]
      exact ⟨hns, hsel⟩
  refine ⟨hmem, ?_⟩
  intro p _ hns _ hmemres
  rcases (hmem (p.name, p.ns)).mp hmemres with ⟨q, _, hqns, _, hq⟩
  have : q.ns = p.ns := congrArg Prod.snd hq.symm
  exact hns (this ▸ hqns)

/-- Claim C8 (witness): a pod in the workload's namespace with matching labels
is listed; a pod in another namespace with the same labels is not. -/
theorem c8_witness :
    ("podA", "ns1") ∈ GetCoveredPods "ns1" [("app", "nginx")]
        [⟨"podA", "ns1", [("app", "nginx")], "node1"⟩,
         ⟨"podC", "prod", [("app", "nginx")], "node1"⟩] ∧
      ("podC", "prod") ∉ GetCoveredPods "ns1" [("app", "nginx")]
        [⟨"podA", "ns1", [("app", "nginx")], "node1"⟩,
         ⟨"podC", "prod", [("app", "nginx")], "node1"⟩] := by
  constructor
  · exact (c8_getCoveredPods_namespaced "ns1" [("app", "nginx")]
      [⟨"podA", "ns1", [("app", "nginx")], "node1"⟩,
       ⟨"podC", "prod", [("app", "nginx")], "node1"⟩]).1 ("podA", "ns1") |>.mpr
      ⟨⟨"podA", "ns1", [("app", "nginx")], "node1"⟩, by decide, rfl, by decide, rfl⟩
  · exact (c8_getCoveredPods_namespaced "ns1" [("app", "nginx")]
      [⟨"podA", "ns1", [("app", "nginx")], "node1"⟩,
       ⟨"podC", "prod", [("app", "nginx")], "node1"⟩]).2
      ⟨"podC", "prod", [("app", "nginx")], "node1"⟩ (by decide) (by decide) (by decide)

/-- One observable action issued by the drain mitigation: cordoning a node
(`K8sNode.Cordon`, patching it unschedulable) or attempting the eviction of a
pod identified by name and namespace; `success` records the per-pod outcome
of the eviction attempt (an eviction may fail, e.g. blocked by a disruption
budget). -/
inductive DrainEvent where
  | cordon (node : String)
  | evict (podName podNs : String) (success : Bool)
deriving DecidableEq

/-- The pod objects behind `workload.GetCoveredPods()` (workloads.py:82-101):
the pods of the workload's namespace whose labels match the selector built
from the workload's resolved pod-match-labels `W`. -/
def coveredPodObjs (wNs : String) (W : List (String × String))
    (world : List PodObj) : List PodObj :=
  world.filter (fun p => p.ns == wNs && selectorMatches W p.labels)

/-- Embedding of `nodes = set(pod.GetNode() for pod in workload.GetCoveredPods())`
(mitigation.py:31). `K8sPod.GetNode` and node identity live in base.py,
outside the provided sources; modelled from the spec, a NodeRef is a
cluster-scoped handle identified by the node name, so the Python set
deduplicates by node name. -/
def drainNodes (wNs : String) (W : List (String × String))
    (world : List PodObj) : List String :=
  ((coveredPodObjs wNs W world).map (fun p => p.nodeName)).dedup

/-- Modelled from the spec: `K8sNode.Drain` (base.py, outside the provided
sources) — attempt the eviction of every pod bound to the node for which the
given predicate holds; an individual eviction may fail (failure oracle `F`,
true when evicting that pod fails), and failures are collected per pod
without aborting the remaining evictions. The predicate passed by the
mitigation is `lambda p: not workload.IsCoveringPod(p)` (mitigation.py:36),
with `IsCoveringPod` reading the pod's current labels. -/
def nodeDrainEvents (world : List PodObj) (W : List (String × String))
    (F : String → String → Bool) (n : String) : List DrainEvent :=
  (world.filter (fun p => p.nodeName == n && !IsCoveringPod W p.labels)).map
    (fun p => DrainEvent.evict p.name p.ns (!F p.name p.ns))

/-- Embedding of `DrainWorkloadNodesFromOtherPods` (mitigation.py:20-36), with
the workload's namespace and resolved pod-match-labels passed explicitly:
compute the distinct covered nodes, cordon each of them when `cordon` holds,
then drain each of them of the pods the workload does not cover. The first
component is the ordered trace of actions issued; the second component is the
function's return value (the Python function returns `None`). -/
def DrainWorkloadNodesFromOtherPods (wNs : String) (W : List (String × String))
    (world : List PodObj) (F : String → String → Bool) (cordon : Bool) :
    List DrainEvent × Unit :=
  let nodes := drainNodes wNs W world
  ((if cordon then nodes.map DrainEvent.cordon else []) ++
      nodes.flatMap (nodeDrainEvents world W F), ())

/-- Whether an event is an eviction attempt of the pod with the given
identity (any outcome). -/
def isEvictOf (podName podNs : String) (e : DrainEvent) : Bool :=
  match e with
  | .evict n s _ => n == podName && s == podNs
  | _ => false

/-- Whether an event is a cordon action. -/
def isCordonEvent (e : DrainEvent) : Bool :=
  match e with
  | .cordon _ => true
  | _ => false

/-- Whether an event is an eviction attempt. -/
def isEvictEvent (e : DrainEvent) : Bool :=
  match e with
  | .evict _ _ _ => true
  | _ => false

/-- The identities of the pods whose eviction a trace attempts, in order. -/
def evictAttempts (t : List DrainEvent) : List (String × String) :=
  t.filterMap (fun e =>
    match e with
    | .evict n s _ => some (n, s)
    | _ => none)

theorem getElem_mem_of_lt {α : Type} (l : List α) (i : Nat) (h : i < l.length) :
    l[i] ∈ l :=
  List.getElem_mem h


theorem countP_nodeDrainEvents_self (world : List PodObj) (W : List (String × String))
    (F : String → String → Bool) (p : PodObj) (hp : p ∈ world)
    (hids : (world.map (fun q => (q.name, q.ns))).Nodup)
    (hcov : IsCoveringPod W p.labels = false) :
    (nodeDrainEvents world W F p.nodeName).countP (isEvictOf p.name p.ns) = 1 := by
  have hinj := List.inj_on_of_nodup_map hids
  unfold nodeDrainEvents
  rw [List.countP_map, List.countP_filter]
  have hcongr : ∀ q ∈ world,
      ((isEvictOf p.name p.ns ∘ fun q => DrainEvent.evict q.name q.ns (!F q.name q.ns)) q &&
        (q.nodeName == p.nodeName && !IsCoveringPod W q.labels)) ↔ (q == p) := by
    intro q hq
    simp only [Function.comp, isEvictOf, Bool.and_eq_true, beq_iff_eq]
    constructor
    · rintro ⟨⟨hn, hs⟩, -, -⟩
      exact hinj hq hp (by rw [hn, hs])
    · rintro rfl
      refine ⟨⟨rfl, rfl⟩, rfl, ?_⟩
      simp [hcov]
  rw [List.countP_congr hcongr, ← List.count_eq_countP]
  exact List.count_eq_one_of_mem (List.Nodup.of_map _ hids) hp

theorem countP_nodeDrainEvents_other (world : List PodObj) (W : List (String × String))
    (F : String → String → Bool) (p : PodObj) (hp : p ∈ world)
    (hids : (world.map (fun q => (q.name, q.ns))).Nodup)
    (n : String) (hne : n ≠ p.nodeName) :
    (nodeDrainEvents world W F n).countP (isEvictOf p.name p.ns) = 0 := by
  have hinj := List.inj_on_of_nodup_map hids
  rw [List.countP_eq_zero]
  intro e he habs
  unfold nodeDrainEvents at he
  rcases List.mem_map.mp he with ⟨q, hq, rfl⟩
  have hqf := List.mem_filter.mp hq
  simp only [isEvictOf, Bool.and_eq_true, beq_iff_eq] at habs
  have hqp : q = p := hinj hqf.1 hp (by rw [habs.1, habs.2])
  subst hqp
  have hnode := hqf.2
  simp only [Bool.and_eq_true, beq_iff_eq] at hnode
  exact hne hnode.1.symm

theorem countP_flatMap_drain_zero (world : List PodObj) (W : List (String × String))
    (F : String → String → Bool) (p : PodObj) (hp : p ∈ world)
    (hids : (world.map (fun q => (q.name, q.ns))).Nodup)
    (nodeList : List String) (hout : p.nodeName ∉ nodeList) :
    (nodeList.flatMap (nodeDrainEvents world W F)).countP (isEvictOf p.name p.ns) = 0 := by
  induction nodeList with
  | nil => rfl
  | cons a t ih =>
    rw [List.flatMap_cons, List.countP_append]
    have ha : a ≠ p.nodeName := fun h => hout (h ▸ List.mem_cons_self a t)
    rw [countP_nodeDrainEvents_other world W F p hp hids a ha,
      ih (fun h => hout (List.mem_cons_of_mem a h))]

theorem countP_flatMap_drain_one (world : List PodObj) (W : List (String × String))
    (F : String → String → Bool) (p : PodObj) (hp : p ∈ world)
    (hids : (world.map (fun q => (q.name, q.ns))).Nodup)
    (hcov : IsCoveringPod W p.labels = false)
    (nodeList : List String) (hnd : nodeList.Nodup) (hin : p.nodeName ∈ nodeList) :
    (nodeList.flatMap (nodeDrainEvents world W F)).countP (isEvictOf p.name p.ns) = 1 := by
  induction nodeList with
  | nil => exact absurd hin (List.not_mem_nil _)
  | cons a t ih =>
    rw [List.flatMap_cons, List.countP_append]
    rcases List.mem_cons.mp hin with ha | ht
    · subst ha
      rw [countP_nodeDrainEvents_self world W F p hp hids hcov,
        countP_flatMap_drain_zero world W F p hp hids t (List.Nodup.not_mem hnd)]
    · have ha : a ≠ p.nodeName := by
        intro h
        exact (List.Nodup.not_mem hnd) (h ▸ ht)
      rw [countP_nodeDrainEvents_other world W F p hp hids a ha,
        ih (List.Nodup.of_cons hnd) ht]

theorem cordon_evict_exclusive (e : DrainEvent) :
    isCordonEvent e = true → isEvictEvent e = false := by
  cases e <;> simp [isCordonEvent, isEvictEvent]

theorem cordon_before_evict_aux (l1 l2 : List DrainEvent)
    (h1 : ∀ e ∈ l1, isCordonEvent e = true) (h2 : ∀ e ∈ l2, isEvictEvent e = true)
    (i j : Nat) (hi : i < (l1 ++ l2).length) (hj : j < (l1 ++ l2).length)
    (hci : isCordonEvent ((l1 ++ l2)[i]) = true)
    (hej : isEvictEvent ((l1 ++ l2)[j]) = true) : i < j := by
  have hlen : (l1 ++ l2).length = l1.length + l2.length := List.length_append l1 l2
  have hi1 : i < l1.length := by
    by_contra hge
    push_neg at hge
    rw [List.getElem_append_right hge] at hci
    have hmem := getElem_mem_of_lt l2 (i - l1.length) (by omega)
    have := cordon_evict_exclusive _ hci
    rw [h2 _ hmem] at this
    simp at this
  have hj1 : l1.length ≤ j := by
    by_contra hlt
    push_neg at hlt
    rw [List.getElem_append_left hlt] at hej
    have hmem := getElem_mem_of_lt l1 j hlt
    have := cordon_evict_exclusive _ (h1 _ hmem)
    rw [hej] at this
    simp at this
  omega

/-- Claim C2: the drain never issues an eviction for a pod the workload
covers; every pod bound to a drain-target node that the workload does not
cover is attempted for eviction exactly once; and the node set of step 1
contains each distinct node at most once (even when several covered pods
share a node, which deduplication collapses). -/
theorem c2_drain_eviction_discipline (wNs : String) (W : List (String × String))
    (world : List PodObj) (F : String → String → Bool) (c : Bool)
    (hids : (world.map (fun q => (q.name, q.ns))).Nodup) :
    (∀ p ∈ world, IsCoveringPod W p.labels = true → ∀ b,
        DrainEvent.evict p.name p.ns b ∉
          (DrainWorkloadNodesFromOtherPods wNs W world F c).1) ∧
    (∀ p ∈ world, p.nodeName ∈ drainNodes wNs W world →
        IsCoveringPod W p.labels = false →
        (DrainWorkloadNodesFromOtherPods wNs W world F c).1.countP
          (isEvictOf p.name p.ns) = 1) ∧
    (drainNodes wNs W world).Nodup := by
  have hinj := List.inj_on_of_nodup_map hids
  have htr : (DrainWorkloadNodesFromOtherPods wNs W world F c).1 =
      (if c then (drainNodes wNs W world).map DrainEvent.cordon else []) ++
        (drainNodes wNs W world).flatMap (nodeDrainEvents world W F) := rfl
  have hcordonNotEvict : ∀ e ∈ (if c then (drainNodes wNs W world).map DrainEvent.cordon
      else ([] : List DrainEvent)), isCordonEvent e = true := by
    intro e he
    cases c with
    | false => exact absurd he (List.not_mem_nil e)
    | true =>
      rcases List.mem_map.mp he with ⟨m, -, rfl⟩
      rfl
  refine ⟨?_, ?_, List.nodup_dedup _⟩
  · intro p hp hcov b hmem
    rw [htr] at hmem
    rcases List.mem_append.mp hmem with hmem | hmem
    · exact absurd (hcordonNotEvict _ hmem) (by simp [isCordonEvent])
    · rcases List.mem_flatMap.mp hmem with ⟨n, -, hseg⟩
      unfold nodeDrainEvents at hseg
      rcases List.mem_map.mp hseg with ⟨q, hq, heq⟩
      have hqf := List.mem_filter.mp hq
      have hids2 : q.name = p.name ∧ q.ns = p.ns := by
        have h1 := congrArg (fun e => match e with
          | DrainEvent.evict n _ _ => n
          | DrainEvent.cordon _ => "") heq
        have h2 := congrArg (fun e => match e with
          | DrainEvent.evict _ s _ => s
          | DrainEvent.cordon _ => "") heq
        exact ⟨h1, h2⟩
      have hqp : q = p := hinj hqf.1 hp (by rw [hids2.1, hids2.2])
      subst hqp
      have hb := hqf.2
      simp only [Bool.and_eq_true] at hb
      rw [hcov] at hb
      simp at hb
  · intro p hp hnode hcov
    rw [htr, List.countP_append]
    have hzero : (if c then (drainNodes wNs W world).map DrainEvent.cordon
        else ([] : List DrainEvent)).countP (isEvictOf p.name p.ns) = 0 := by
      rw [List.countP_eq_zero]
      intro e he habs
      have := hcordonNotEvict e he
      cases e with
      | cordon m => exact absurd habs (by simp [isEvictOf])
      | evict a b s => exact absurd this (by simp [isCordonEvent])
    rw [hzero, countP_flatMap_drain_one world W F p hp hids hcov
      (drainNodes wNs W world) (List.nodup_dedup _) hnode]

/-- A concrete cluster for the drain witnesses: two covered pods of the
workload's namespace sharing one node, and one uncovered pod (of another
namespace) on that same node. -/
def worldDrain : List PodObj :=
  [⟨"podA1", "ns1", [("app", "x")], "node1"⟩,
   ⟨"podA2", "ns1", [("app", "x")], "node1"⟩,
   ⟨"podB", "kube", [], "node1"⟩]

/-- Failure oracle under which every eviction succeeds. -/
def noFailures : String → String → Bool := fun _ _ => false

/-- Failure oracle under which evicting the pod named `podB` fails. -/
def failPodB : String → String → Bool := fun n _ => n == "podB"

/-- Claim C2 (witness): on the concrete cluster, the covered pod `podA1` is
never evicted, the uncovered pod `podB` is attempted exactly once, and the
node set is duplicate-free although two covered pods share `node1`. -/
theorem c2_witness :
    DrainEvent.evict "podA1" "ns1" true ∉
        (DrainWorkloadNodesFromOtherPods "ns1" [("app", "x")] worldDrain noFailures true).1 ∧
      (DrainWorkloadNodesFromOtherPods "ns1" [("app", "x")] worldDrain noFailures true).1.countP
        (isEvictOf "podB" "kube") = 1 ∧
      (drainNodes "ns1" [("app", "x")] worldDrain).Nodup :=
  ⟨(c2_drain_eviction_discipline "ns1" [("app", "x")] worldDrain noFailures true
      (by decide)).1 ⟨"podA1", "ns1", [("app", "x")], "node1"⟩ (by decide) (by decide) true,
   (c2_drain_eviction_discipline "ns1" [("app", "x")] worldDrain noFailures true
      (by decide)).2.1 ⟨"podB", "kube", [], "node1"⟩ (by decide) (by decide) (by decide),
   (c2_drain_eviction_discipline "ns1" [("app", "x")] worldDrain noFailures true
      (by decide)).2.2⟩

/-- Claim C3: with `cordon=true`, every distinct node hosting a covered pod
gets a cordon action in the trace, and every cordon action precedes every
eviction attempt (no eviction is interleaved with cordoning). -/
theorem c3_cordon_strictly_before_evictions (wNs : String)
    (W : List (String × String)) (world : List PodObj)
    (F : String → String → Bool) :
    (∀ m, (∃ p ∈ world, p.ns = wNs ∧ selectorMatches W p.labels = true ∧
        p.nodeName = m) →
      DrainEvent.cordon m ∈ (DrainWorkloadNodesFromOtherPods wNs W world F true).1) ∧
    (∀ i j (hi : i < (DrainWorkloadNodesFromOtherPods wNs W world F true).1.length)
        (hj : j < (DrainWorkloadNodesFromOtherPods wNs W world F true).1.length),
      isCordonEvent ((DrainWorkloadNodesFromOtherPods wNs W world F true).1[i]) = true →
      isEvictEvent ((DrainWorkloadNodesFromOtherPods wNs W world F true).1[j]) = true →
      i < j) := by
  constructor
  · rintro m ⟨p, hp, hns, hsel, hnode⟩
    have hcovered : p ∈ coveredPodObjs wNs W world := by
      refine List.mem_filter.mpr ⟨hp, ?_⟩
      simp only [Bool.and_eq_true, beq_iff_eq]
      exact ⟨hns, hsel⟩
    have hmapped : m ∈ (coveredPodObjs wNs W world).map (fun p => p.nodeName) :=
      List.mem_map.mpr ⟨p, hcovered, hnode⟩
    have hnodes : m ∈ drainNodes wNs W world := List.mem_dedup.mpr hmapped
    exact List.mem_append_left _ (List.mem_map.mpr ⟨m, hnodes, rfl⟩)
  · intro i j hi hj hci hej
    refine cordon_before_evict_aux ((drainNodes wNs W world).map DrainEvent.cordon)
      ((drainNodes wNs W world).flatMap (nodeDrainEvents world W F)) ?_ ?_ i j hi hj hci hej
    · intro e he
      rcases List.mem_map.mp he with ⟨m, -, rfl⟩
      rfl
    · intro e he
      rcases List.mem_flatMap.mp he with ⟨n, -, hseg⟩
      unfold nodeDrainEvents at hseg
      rcases List.mem_map.mp hseg with ⟨q, -, rfl⟩
      rfl

/-- Claim C3 (witness): on the concrete cluster, `node1` (hosting covered
pods) is cordoned, and the cordon at position 0 precedes the eviction at
position 1. -/
theorem c3_witness :
    DrainEvent.cordon "node1" ∈
        (DrainWorkloadNodesFromOtherPods "ns1" [("app", "x")] worldDrain noFailures true).1 ∧
      (0 : Nat) < 1 :=
  ⟨(c3_cordon_strictly_before_evictions "ns1" [("app", "x")] worldDrain noFailures).1
      "node1" ⟨⟨"podA1", "ns1", [("app", "x")], "node1"⟩, by decide, rfl, by decide, rfl⟩,
   (c3_cordon_strictly_before_evictions "ns1" [("app", "x")] worldDrain noFailures).2
      0 1 (by decide) (by decide) (by decide) (by decide)⟩

theorem evictAttempts_append (a b : List DrainEvent) :
    evictAttempts (a ++ b) = evictAttempts a ++ evictAttempts b := by
  unfold evictAttempts
  exact List.filterMap_append a b _

theorem evictAttempts_nodeDrainEvents (world : List PodObj)
    (W : List (String × String)) (F : String → String → Bool) (n : String) :
    evictAttempts (nodeDrainEvents world W F n) =
      (world.filter (fun p => p.nodeName == n && !IsCoveringPod W p.labels)).map
        (fun p => (p.name, p.ns)) := by
  unfold nodeDrainEvents evictAttempts
  induction world.filter (fun p => p.nodeName == n && !IsCoveringPod W p.labels) with
  | nil => rfl
  | cons a t ih => simp only [List.map_cons, List.filterMap_cons] at ih ⊢; rw [ih]

theorem evictAttempts_cordons (nodeList : List String) :
    evictAttempts (nodeList.map DrainEvent.cordon) = [] := by
  unfold evictAttempts
  induction nodeList with
  | nil => rfl
  | cons a t ih => simp only [List.map_cons, List.filterMap_cons] at ih ⊢; rw [ih]

/-- Claim C7 (amended): per-pod eviction failures never abort the remaining
evictions — the sequence of attempted evictions is the same as in a run where
every eviction succeeds — but `DrainWorkloadNodesFromOtherPods` returns
`None`, so the per-pod failures are not surfaced in the operation's result
(its return value is identical whatever the failures). -/
theorem c7_failures_collected_not_aborting (wNs : String)
    (W : List (String × String)) (world : List PodObj)
    (F : String → String → Bool) (c : Bool) :
    evictAttempts (DrainWorkloadNodesFromOtherPods wNs W world F c).1 =
        evictAttempts (DrainWorkloadNodesFromOtherPods wNs W world noFailures c).1 ∧
      (DrainWorkloadNodesFromOtherPods wNs W world F c).2 =
        (DrainWorkloadNodesFromOtherPods wNs W world noFailures c).2 := by
  refine ⟨?_, rfl⟩
  have hflat : ∀ G : String → String → Bool,
      evictAttempts ((drainNodes wNs W world).flatMap (nodeDrainEvents world W G)) =
        (drainNodes wNs W world).flatMap (fun n =>
          (world.filter (fun p => p.nodeName == n && !IsCoveringPod W p.labels)).map
            (fun p => (p.name, p.ns))) := by
    intro G
    induction drainNodes wNs W world with
    | nil => rfl
    | cons a t ih =>
      rw [List.flatMap_cons, List.flatMap_cons, evictAttempts_append,
        evictAttempts_nodeDrainEvents, ih]
  have hsplit : ∀ G : String → String → Bool,
      evictAttempts (DrainWorkloadNodesFromOtherPods wNs W world G c).1 =
        evictAttempts ((drainNodes wNs W world).flatMap (nodeDrainEvents world W G)) := by
    intro G
    have htr : (DrainWorkloadNodesFromOtherPods wNs W world G c).1 =
        (if c then (drainNodes wNs W world).map DrainEvent.cordon else []) ++
          (drainNodes wNs W world).flatMap (nodeDrainEvents world W G) := rfl
    rw [htr, evictAttempts_append]
    cases c with
    | false => rfl
    | true => rw [if_pos rfl, evictAttempts_cordons]; rfl
  rw [hsplit F, hsplit noFailures, hflat F, hflat noFailures]

/-- Claim C7 (counterexample): an execution in which the eviction of `podB`
fails — the failed attempt is recorded among the issued actions, and the
trace differs from the all-successful run — while the operation's returned
result is identical to the all-successful run's: the Python function returns
`None`, so partial failure is not distinguishable from total success in the
operation's result, refuting the claim's reported-to-the-caller part. -/
theorem c7_counterexample :
    DrainEvent.evict "podB" "kube" false ∈
        (DrainWorkloadNodesFromOtherPods "ns1" [("app", "x")] worldDrain failPodB true).1 ∧
      (DrainWorkloadNodesFromOtherPods "ns1" [("app", "x")] worldDrain failPodB true).1 ≠
        (DrainWorkloadNodesFromOtherPods "ns1" [("app", "x")] worldDrain noFailures true).1 ∧
      (DrainWorkloadNodesFromOtherPods "ns1" [("app", "x")] worldDrain failPodB true).2 =
        (DrainWorkloadNodesFromOtherPods "ns1" [("app", "x")] worldDrain noFailures true).2 :=
  ⟨by decide, by decide, rfl⟩

/-- The `metadata` part of a pod-template patch: its optional labels
mapping (`none` when absent from the patch body). -/
structure TemplateMetadataPatch where
  labels : Option (List (String × String))
deriving DecidableEq

/-- The `spec` part of a pod-template patch, where the containers live
(`none` fields are absent from the patch body). -/
structure TemplateSpecPatch where
  containers : Option (List String)
deriving DecidableEq

/-- A patch on the pod template: optional metadata and optional template
spec. -/
structure TemplatePatch where
  metadata : Option TemplateMetadataPatch
  spec : Option TemplateSpecPatch
deriving DecidableEq

/-- The `spec` part of a deployment patch body: optional replica count and
optional pod-template patch. -/
structure DeploymentSpecPatch where
  replicas : Option Nat
  template : Option TemplatePatch
deriving DecidableEq

/-- A deployment patch body, mirroring the nested dictionary passed to
`patch_namespaced_deployment`. -/
structure DeploymentPatchBody where
  spec : Option DeploymentSpecPatch
deriving DecidableEq

/-- Embedding of the patch body constructed by
`K8sDeployment.AddTemplateLabels` (workloads.py:126-137): the nested
dictionary `spec.template.metadata.labels = labels`, with every other field
absent. -/
def addTemplateLabelsBody (labels : List (String × String)) : DeploymentPatchBody :=
  { spec := some
      { replicas := none
        template := some
          { metadata := some { labels := some labels }
            spec := none } } }

/-- The deployment state the patch semantics acts on: replica count,
pod-template labels, and pod-template containers. -/
structure DeploymentState where
  replicas : Nat
  templateLabels : List (String × String)
  containers : List String
deriving DecidableEq

/-- Modelled from the spec: merging a patch's label mapping into existing
labels under patch-merge semantics (spec section 4.4) — labels named in the
patch are overwritten, labels not named are preserved. -/
def mergeLabels (old new : List (String × String)) : List (String × String) :=
  old.filter (fun kv => (lookupLabel new kv.1).isNone) ++ new

/-- Modelled from the spec: the external API's merge-patch application — a
field absent from the patch body leaves the corresponding state untouched; a
present labels mapping is merged into the pod-template labels. -/
def applyDeploymentPatch (st : DeploymentState) (body : DeploymentPatchBody) :
    DeploymentState :=
  match body.spec with
  | none => st
  | some sp =>
    { replicas := sp.replicas.getD st.replicas
      templateLabels :=
        match sp.template with
        | none => st.templateLabels
        | some tp =>
          match tp.metadata with
          | none => st.templateLabels
          | some md =>
            match md.labels with
            | none => st.templateLabels
            | some l => mergeLabels st.templateLabels l
      containers :=
        match sp.template with
        | none => st.containers
        | some tp =>
          match tp.spec with
          | none => st.containers
          | some tsp => tsp.containers.getD st.containers }

theorem lookupLabel_append (a b : List (String × String)) (k : String) :
    lookupLabel (a ++ b) k =
      match lookupLabel a k with
      | some v => some v
      | none => lookupLabel b k := by
  induction a with
  | nil => rfl
  | cons kv t ih =>
    obtain ⟨k1, v1⟩ := kv
    by_cases h : (k1 == k) = true
    · simp [lookupLabel, h]
    · simp [lookupLabel, h, ih]

theorem lookupLabel_filter_of_some (old new : List (String × String))
    (k v : String) (h : lookupLabel new k = some v) :
    lookupLabel (old.filter (fun kv => (lookupLabel new kv.1).isNone)) k = none := by
  induction old with
  | nil => rfl
  | cons kv t ih =>
    obtain ⟨k1, v1⟩ := kv
    by_cases hk : (lookupLabel new k1).isNone = true
    · by_cases he : (k1 == k) = true
      · exfalso
        rw [beq_iff_eq.mp he, h] at hk
        simp at hk
      · simp [List.filter_cons, hk, lookupLabel, he, ih]
    · simp [List.filter_cons, hk, ih]

theorem lookupLabel_filter_of_none (old new : List (String × String))
    (k : String) (h : lookupLabel new k = none) :
    lookupLabel (old.filter (fun kv => (lookupLabel new kv.1).isNone)) k =
      lookupLabel old k := by
  induction old with
  | nil => rfl
  | cons kv t ih =>
    obtain ⟨k1, v1⟩ := kv
    by_cases he : (k1 == k) = true
    · have hkeep : (lookupLabel new k1).isNone = true := by
        rw [beq_iff_eq.mp he, h]
        rfl
      simp [List.filter_cons, hkeep, lookupLabel, he]
    · by_cases hk : (lookupLabel new k1).isNone = true
      · simp [List.filter_cons, hk, lookupLabel, he, ih]
      · simp [List.filter_cons, hk, lookupLabel, he, ih]

theorem lookupLabel_mergeLabels (old new : List (String × String)) (k : String) :
    lookupLabel (mergeLabels old new) k =
      match lookupLabel new k with
      | some v => some v
      | none => lookupLabel old k := by
  unfold mergeLabels
  rw [lookupLabel_append]
  cases h : lookupLabel new k with
  | some v =>
    rw [lookupLabel_filter_of_some old new k v h]
  | none =>
    rw [lookupLabel_filter_of_none old new k h]
    cases h2 : lookupLabel old k <;> simp [h2, h]

/-- Claim C9: the patch body built by `AddTemplateLabels` names only the
pod-template labels delta (its `replicas` field and its
`template.spec` — where the containers live — are absent), and under
patch-merge semantics applying it preserves `replicas` and `containers`,
preserves every existing template label whose key the input does not name,
and overwrites labels whose key the input names. -/
theorem c9_addTemplateLabels_frame (st : DeploymentState)
    (L : List (String × String)) (k : String) :
    ((applyDeploymentPatch st (addTemplateLabelsBody L)).replicas = st.replicas ∧
      (applyDeploymentPatch st (addTemplateLabelsBody L)).containers = st.containers) ∧
    ((addTemplateLabelsBody L).spec.map (fun sp => sp.replicas) = some none ∧
      ((addTemplateLabelsBody L).spec.bind (fun sp => sp.template)).bind
        (fun tp => tp.spec) = none) ∧
    (lookupLabel L k = none →
      lookupLabel (applyDeploymentPatch st (addTemplateLabelsBody L)).templateLabels k =
        lookupLabel st.templateLabels k) ∧
    (∀ v, lookupLabel L k = some v →
      lookupLabel (applyDeploymentPatch st (addTemplateLabelsBody L)).templateLabels k =
        some v) := by
  have hlab : (applyDeploymentPatch st (addTemplateLabelsBody L)).templateLabels =
      mergeLabels st.templateLabels L := rfl
  refine ⟨⟨rfl, rfl⟩, ⟨rfl, rfl⟩, ?_, ?_⟩
  · intro h
    rw [hlab, lookupLabel_mergeLabels, h]
  · intro v h
    rw [hlab, lookupLabel_mergeLabels, h]

/-- Claim C9 (witness): patching `{net-policy: deny-all-abc123, tier: api}`
into a concrete deployment leaves replicas and containers untouched,
preserves the unnamed label `app`, and overwrites the named label `tier`. -/
theorem c9_witness :
    (applyDeploymentPatch ⟨3, [("app", "nginx"), ("tier", "web")], ["c1"]⟩
        (addTemplateLabelsBody [("net-policy", "deny-all-abc123"), ("tier", "api")])).replicas
        = 3 ∧
      lookupLabel (applyDeploymentPatch ⟨3, [("app", "nginx"), ("tier", "web")], ["c1"]⟩
        (addTemplateLabelsBody
          [("net-policy", "deny-all-abc123"), ("tier", "api")])).templateLabels "app"
        = some "nginx" ∧
      lookupLabel (applyDeploymentPatch ⟨3, [("app", "nginx"), ("tier", "web")], ["c1"]⟩
        (addTemplateLabelsBody
          [("net-policy", "deny-all-abc123"), ("tier", "api")])).templateLabels "tier"
        = some "api" :=
  ⟨(c9_addTemplateLabels_frame ⟨3, [("app", "nginx"), ("tier", "web")], ["c1"]⟩
      [("net-policy", "deny-all-abc123"), ("tier", "api")] "app").1.1,
   (c9_addTemplateLabels_frame ⟨3, [("app", "nginx"), ("tier", "web")], ["c1"]⟩
      [("net-policy", "deny-all-abc123"), ("tier", "api")] "app").2.2.1 (by decide),
   (c9_addTemplateLabels_frame ⟨3, [("app", "nginx"), ("tier", "web")], ["c1"]⟩
      [("net-policy", "deny-all-abc123"), ("tier", "api")] "tier").2.2.2 "api" (by decide)⟩

end K8s
